import Mathlib

/-!
Shallow embedding of `casklabels.py`, the label-grid pagination and
field-layout engine for printing cask labels, together with proofs about its
geometry, record expansion, rendering pipeline and error handling.

Conventions of the embedding:
* reportlab canvas calls are recorded as a trace of `CanvasOp` values;
* Python exceptions (KeyError, ValueError, TypeError, UnboundLocalError,
  SystemExit) become the `Except.error` branch, and generator pipelines become
  `Except String (List _)` over fully forced streams;
* CSV parsing of configuration rows into constructed instances is an external
  collaborator, so `read_file` style functions are parameterized by the
  already-parsed rows together with the file's header row;
* physical dimensions are rationals, already scaled to canvas units the way
  `__init__` does with `* units.mm`.
-/

/-- A Python value stored in a record: CSV cells arrive as strings, while
`repeat_casks` stores the cask counter as a Python `int`. -/
inductive PyVal where
  | str (s : String)
  | int (n : Int)
deriving DecidableEq, Repr

/-- A data record, as produced by `read_csv`: one Python dict per CSV row,
an ordered mapping from column names to values. -/
abbrev Record := List (String × PyVal)

/-- Dict lookup `row[name]`; keys are unique, the first binding wins. -/
def lookupField : Record → String → Option PyVal
  | [], _ => none
  | (k, v) :: rest, name => if k = name then some v else lookupField rest name

/-- Dict assignment `row[k] = v`: an existing key keeps its position in the
ordered mapping, a new key is appended at the end. -/
def setField : Record → String → PyVal → Record
  | [], k, v => [(k, v)]
  | (k0, v0) :: rest, k, v =>
      if k0 = k then (k0, v) :: rest else (k0, v0) :: setField rest k v

/-- Digits to the natural number they denote, most significant first. -/
def digitsToNat (ds : List Char) : ℕ :=
  ds.foldl (fun acc c => 10 * acc + (c.toNat - 48)) 0

/-- At least one character and all of them decimal digits. -/
def allDigits (ds : List Char) : Bool :=
  !ds.isEmpty && ds.all (fun c => c.isDigit)

/-- Drop leading whitespace characters. -/
def dropLeadingWS : List Char → List Char
  | [] => []
  | c :: rest => if c.isWhitespace then dropLeadingWS rest else c :: rest

/-- Strip surrounding whitespace, as Python `int` does before parsing. -/
def stripWS (cs : List Char) : List Char :=
  ((dropLeadingWS ((dropLeadingWS cs).reverse)).reverse)

/-- Python `int(s)` on a string: optional surrounding whitespace, an optional
sign, then at least one decimal digit; anything else raises `ValueError`.
(Negative literals parse: `int` is not a non-negativity check.) -/
def pyIntParse (s : String) : Except String Int :=
  match stripWS s.toList with
  | '-' :: ds =>
      if allDigits ds then .ok (-(digitsToNat ds : Int))
      else .error ("ValueError: invalid literal for int: " ++ s)
  | '+' :: ds =>
      if allDigits ds then .ok (digitsToNat ds : Int)
      else .error ("ValueError: invalid literal for int: " ++ s)
  | ds =>
      if allDigits ds then .ok (digitsToNat ds : Int)
      else .error ("ValueError: invalid literal for int: " ++ s)

/-- Python `int(x)` applied to a record value. -/
def pyIntOfVal : PyVal → Except String Int
  | .int n => .ok n
  | .str s => pyIntParse s

/-- The `LabelType` state (`casklabels.py` lines 112-132) after `__init__` has run:
all dimensions are in canvas units (the `* units.mm` scaling already applied)
and the page size is resolved. A constructed instance always has a page size,
because `__init__` evaluates `self.page_size[1]` and would have raised a
`TypeError` had `find_page_size` returned `None`. -/
structure LabelType where
  name : String
  pageW : ℚ
  pageH : ℚ
  left : ℚ
  hor_pitch : ℚ
  width : ℚ
  columns : ℕ
  top : ℚ
  ver_pitch : ℚ
  height : ℚ
  rows : ℕ
deriving DecidableEq, Repr

/-- Derived `self.bottom = self.page_size[1] - self.top - self.rows * self.ver_pitch`
(line 130). -/
def LabelType.bottom (lt : LabelType) : ℚ :=
  lt.pageH - lt.top - (lt.rows : ℚ) * lt.ver_pitch

/-- Derived `self.labels_per_page = self.rows * self.columns` (line 132). -/
def LabelType.labels_per_page (lt : LabelType) : ℕ :=
  lt.rows * lt.columns

/-- One observable reportlab canvas operation, recorded in emission order. -/
inductive CanvasOp where
  | setPageSize (w h : ℚ)
  | showPage
  | saveState
  | translate (x y : ℚ)
  | drawParagraph (x y w h : ℚ) (text : String)
  | restoreState
deriving DecidableEq, Repr

/-- The translate target computed inside `LabelType.start_label` (lines
149-159): `row = rows - 1 - (label_number // columns) % rows`,
`column = label_number % columns`, and the origin is
`(left + column * hor_pitch, bottom + row * ver_pitch)`. -/
def LabelType.slotOrigin (lt : LabelType) (i : ℕ) : ℚ × ℚ :=
  let row : ℕ := lt.rows - 1 - (i / lt.columns) % lt.rows
  let column : ℕ := i % lt.columns
  (lt.left + (column : ℚ) * lt.hor_pitch, lt.bottom + (row : ℚ) * lt.ver_pitch)

/-- Embeds `LabelType.start_label` (lines 143-159): a `showPage` exactly when
`label_number > 0 and (label_number % labels_per_page) == 0`, then `saveState`
and the translate to the slot origin. -/
def LabelType.startLabel (lt : LabelType) (i : ℕ) : List CanvasOp :=
  (if 0 < i ∧ i % lt.labels_per_page = 0 then [CanvasOp.showPage] else [])
    ++ [CanvasOp.saveState,
        CanvasOp.translate (lt.slotOrigin i).1 (lt.slotOrigin i).2]

/-- Embeds `LabelType.start_label_run` (lines 136-141): sets the page size. -/
def LabelType.startLabelRun (lt : LabelType) : List CanvasOp :=
  [CanvasOp.setPageSize lt.pageW lt.pageH]

/-- Embeds `LabelType.end_label` (lines 164-170): restores the canvas state. -/
def LabelType.endLabel : List CanvasOp :=
  [CanvasOp.restoreState]

/-- Embeds `LabelType.end_label_run` (lines 172-178): commits the final page with
`canvas.showPage()`; the `label_count` argument is unused. -/
def LabelType.endLabelRun : List CanvasOp :=
  [CanvasOp.showPage]

/-- One token of a `%`-format template string in parsed form: literal text,
a `%(name)X` field reference with its conversion character, or a malformed
directive. -/
inductive Tok where
  | lit (s : String)
  | fld (name : String) (conv : Char)
  | bad
deriving DecidableEq, Repr

/-- A field's format template, carried in parsed-token form. -/
abbrev Fmt := List Tok

/-- The record field names a template references. -/
def fmtRefs (f : Fmt) : List String :=
  f.filterMap fun t =>
    match t with
    | .fld name _ => some name
    | _ => none

/-- One conversion of Python `%` formatting against a mapping: `%s`
stringifies any value, `%d` requires a number (`TypeError` on a string), any
other conversion character is a `ValueError`. -/
def convVal : Char → PyVal → Except String String
  | 's', .str s => .ok s
  | 's', .int n => .ok (toString n)
  | 'd', .int n => .ok (toString n)
  | 'd', .str _ => .error "TypeError: %d format: a number is required, not str"
  | c, _ => .error ("ValueError: unsupported format character " ++ String.mk [c])

/-- Embeds `self.format % record` (`LabelField.render`, line 290): substitute each
referenced field from the record; a name absent from the record raises
`KeyError` — no default is substituted. -/
def renderFmt : Fmt → Record → Except String String
  | [], _ => .ok ""
  | .lit s :: rest, r => (renderFmt rest r).map (fun t => s ++ t)
  | .fld name conv :: rest, r =>
      match lookupField r name with
      | none => .error ("KeyError: " ++ name)
      | some v =>
          match convVal conv v with
          | .error e => .error e
          | .ok s => (renderFmt rest r).map (fun t => s ++ t)
  | .bad :: _, _ => .error "ValueError: incomplete format"

/-- The `LabelField` state (lines 254-284) after `__init__`: the frame geometry already
multiplied by the label type's width and height, and the format template in
parsed form. The paragraph style attributes (font, colour, alignment) do not
affect any property proved here and are not carried. -/
structure LabelField where
  x : ℚ
  y : ℚ
  width : ℚ
  height : ℚ
  format : Fmt
deriving DecidableEq, Repr

/-- Embeds `LabelField.render` (lines 286-296): format the template against the
record, then draw the paragraph into the field's frame. A formatting error
propagates; no drawing happens for that field. -/
def LabelField.render (f : LabelField) (r : Record) : Except String CanvasOp :=
  (renderFmt f.format r).map fun text =>
    CanvasOp.drawParagraph f.x f.y f.width f.height text

/-- The inner loop of `add_labels` (lines 428-429): render every field of one
label, in declaration order; the first error aborts. -/
def renderFields : List LabelField → Record → Except String (List CanvasOp)
  | [], _ => .ok []
  | f :: rest, r => do
      let op ← f.render r
      let ops ← renderFields rest r
      .ok (op :: ops)

/-- The `for i, data_fields in enumerate(...)` loop of `add_labels` (lines
425-431), carrying the running label index. -/
def labelLoop (lt : LabelType) (fields : List LabelField) :
    ℕ → List Record → Except String (List CanvasOp)
  | _, [] => .ok []
  | i, r :: rest => do
      let fops ← renderFields fields r
      let restOps ← labelLoop lt fields (i + 1) rest
      .ok (lt.startLabel i ++ fops ++ LabelType.endLabel ++ restOps)

/-- Embeds `add_labels` (lines 414-433). With an empty record stream the loop never
binds `i`, so the call `end_label_run(canvas, i + 1)` on line 433 raises
`UnboundLocalError`; otherwise the trace is the page-size setup, the per-label
operations, and the unconditional final `showPage`. -/
def add_labels (lt : LabelType) (fields : List LabelField)
    (records : List Record) : Except String (List CanvasOp) :=
  match records with
  | [] => .error "UnboundLocalError: local variable i referenced before assignment"
  | _ :: _ => do
      let loopOps ← labelLoop lt fields 0 records
      .ok (lt.startLabelRun ++ loopOps ++ LabelType.endLabelRun)

/-- One outer iteration of `repeat_casks` (lines 467-470): read the quantity
column, apply Python `int`, and yield one snapshot of the row per inner
iteration, the `enum` column holding the Python int `cask + 1`. `range` of a
negative number is empty, so a negative quantity yields nothing. -/
def expandRow (quantity enum : String) (row : Record) : Except String (List Record) :=
  match lookupField row quantity with
  | none => .error ("KeyError: " ++ quantity)
  | some v =>
      match pyIntOfVal v with
      | .error e => .error e
      | .ok q =>
          .ok ((List.range q.toNat).map fun cask =>
            setField row enum (.int ((cask : Int) + 1)))

/-- Embeds `repeat_casks` (lines 463-470) over a forced stream: concatenate the
per-row expansions; a parse failure anywhere aborts the stream. -/
def repeat_casks (quantity enum : String) : List Record → Except String (List Record)
  | [] => .ok []
  | row :: rest => do
      let ys ← expandRow quantity enum row
      let rest' ← repeat_casks quantity enum rest
      .ok (ys ++ rest')

/-- Embeds `read_beers` (lines 448-461): with both option values present the stream
is expanded by `repeat_casks`, otherwise it passes through unchanged. -/
def read_beers (quantity enum : Option String) (records : List Record) :
    Except String (List Record) :=
  match quantity, enum with
  | some q, some e => repeat_casks q e records
  | _, _ => .ok records

/-- The required columns of the label-type file (lines 41-54), including the
source's spelling of the vertical pitch column. -/
def LabelType.COLUMNS : List String :=
  ["Name", "Page size", "Left", "Horizontal Pitch", "Width", "Columns",
   "Top", "Vertial Pitch", "Height", "Rows"]

/-- Embeds `LabelType.check_header` (lines 85-96): number of required columns the
header lacks; each is logged as an error. -/
def LabelType.checkHeader (header : List String) : ℕ :=
  (LabelType.COLUMNS.filter fun c => !(header.contains c)).length

/-- The required columns of the field file (lines 190-204). -/
def LabelField.COLUMNS : List String :=
  ["X", "Y", "Width", "Height", "Font family", "Font size",
   "Colour", "Layout", "Format"]

/-- Embeds `LabelField.check_header` (lines 227-238). -/
def LabelField.checkHeader (header : List String) : ℕ :=
  (LabelField.COLUMNS.filter fun c => !(header.contains c)).length

/-- Embeds `LabelType.read_file` (lines 57-83), parameterized by the already-parsed
data rows: a failing header check yields the empty dictionary; otherwise rows
are keyed by name (a later row overwrites an earlier one with the same name,
as building a dict from pairs does) and the first row is additionally keyed
under `None` to serve as the default type. -/
def LabelType.readFile (header : List String) (rows : List LabelType) :
    Option String → Option LabelType :=
  fun key =>
    if 0 < LabelType.checkHeader header then none
    else
      match key with
      | some n => (rows.filter fun lt => lt.name == n).getLast?
      | none => rows.head?

/-- Embeds `get_label_type` (lines 394-411): look the requested name (or `None`) up
in the dictionary `LabelType.read_file` built; when absent, log and
`sys.exit(1)`. -/
def get_label_type (header : List String) (rows : List LabelType)
    (name : Option String) : Except String LabelType :=
  match LabelType.readFile header rows name with
  | none => .error "SystemExit: 1 (label type not known)"
  | some lt => .ok lt

/-- Embeds `LabelField.read_file` (lines 207-225), parameterized by the parsed rows:
a failing header check only logs the missing columns and yields the empty
field list — it does not raise or exit. -/
def LabelField.readFile (header : List String) (rows : List LabelField) :
    List LabelField :=
  if 0 < LabelField.checkHeader header then [] else rows

/-- reportlab `units.mm`: 72 points per inch over 25.4 millimetres per inch. -/
def mm : ℚ := 360 / 127

/-- Sign handling of a Python numeric literal: strips one leading sign
character, reporting whether it was a minus. -/
def splitSign : List Char → (Bool × List Char)
  | '-' :: cs => (true, cs)
  | '+' :: cs => (false, cs)
  | cs => (false, cs)

/-- Value of the fractional digit block of a float literal. -/
def fracVal (ds : List Char) : ℚ :=
  (digitsToNat ds : ℚ) / (10 : ℚ) ^ ds.length

/-- The optional exponent part of a Python float literal: empty means scale 1;
otherwise `e` or `E`, an optional sign and at least one digit, consuming the
whole remainder. -/
def parseExp : List Char → Option ℚ
  | [] => some 1
  | e :: rest =>
      if e = 'e' ∨ e = 'E' then
        let t := splitSign rest
        let ds := t.2.takeWhile Char.isDigit
        let rest2 := t.2.dropWhile Char.isDigit
        if ds.isEmpty || !rest2.isEmpty then none
        else if t.1 then some (1 / (10 : ℚ) ^ digitsToNat ds)
        else some ((10 : ℚ) ^ digitsToNat ds)
      else none

/-- The unsigned part of a Python float literal: digits, optionally a decimal
point and further digits (at least one digit in total), then an optional
exponent. -/
def parseFloatCore (cs : List Char) : Option ℚ :=
  let intPart := cs.takeWhile Char.isDigit
  let rest := cs.dropWhile Char.isDigit
  match rest with
  | [] => if intPart.isEmpty then none else some (digitsToNat intPart : ℚ)
  | '.' :: rest2 =>
      let fracPart := rest2.takeWhile Char.isDigit
      let rest3 := rest2.dropWhile Char.isDigit
      if intPart.isEmpty && fracPart.isEmpty then none
      else (parseExp rest3).map
        (fun sc => ((digitsToNat intPart : ℚ) + fracVal fracPart) * sc)
  | _ =>
      if intPart.isEmpty then none
      else (parseExp rest).map (fun sc => (digitsToNat intPart : ℚ) * sc)

/-- Embeds Python `float(s)` on the grammar `[sign] (digits [. digits] |
. digits) [(e|E) [sign] digits]` with surrounding whitespace; `inf`, `nan` and
underscore grouping are not modelled (no configuration value the claims touch
uses them, and a stricter parser never reaches the success path unfaithfully).
Failure raises `ValueError`. -/
def pyFloatParse (s : String) : Except String ℚ :=
  let t := splitSign (stripWS s.toList)
  match parseFloatCore t.2 with
  | none => .error ("ValueError: could not convert string to float: " ++ s)
  | some q => .ok (if t.1 then -q else q)

/-- Lookup in the row dictionary `dict(zip(header, row))`: a missing column
raises `KeyError`; a duplicated header column keeps the later value, as dict
construction from pairs does. -/
def rowGet (params : List (String × String)) (k : String) : Except String String :=
  match (params.filter fun p => p.1 == k).getLast? with
  | none => .error ("KeyError: " ++ k)
  | some p => .ok p.2

/-- Embeds `find_page_size` (lines 25-33), parameterized by the collaborator
table of reportlab page-size attributes, each a width-height pair (an
attribute that is not a 2-tuple behaves like an absent one: both yield
`None`). An unknown name is logged and `None` returned; no exception is
raised here. -/
def find_page_size (pageSizes : List (String × ℚ × ℚ)) (name : String) :
    Option (ℚ × ℚ) :=
  match (pageSizes.filter fun p => p.1 == name).getLast? with
  | none => none
  | some p => some p.2

/-- Embeds `LabelType.__init__` (lines 112-132) from the raw row dictionary.
`find_page_size` only logs an unknown page-size name and returns `None`; the
abort happens on line 130, where `self.page_size[1]` raises `TypeError` — but
only after every numeric field has parsed, because the `float()`/`int()`
calls on lines 120-128 run first and raise `ValueError` on a malformed
numeric field. A negative parsed column or row count (degenerate, excluded by
the grid invariant) is clamped to 0, as the grid state carries naturals. -/
def LabelType.init (pageSizes : List (String × ℚ × ℚ))
    (params : List (String × String)) : Except String LabelType := do
  let name ← rowGet params "Name"
  let psName ← rowGet params "Page size"
  let page_size := find_page_size pageSizes psName
  let left ← (pyFloatParse (← rowGet params "Left")).map (· * mm)
  let hor_pitch ← (pyFloatParse (← rowGet params "Horizontal Pitch")).map (· * mm)
  let width ← (pyFloatParse (← rowGet params "Width")).map (· * mm)
  let columns ← pyIntParse (← rowGet params "Columns")
  let top ← (pyFloatParse (← rowGet params "Top")).map (· * mm)
  let ver_pitch ← (pyFloatParse (← rowGet params "Vertial Pitch")).map (· * mm)
  let height ← (pyFloatParse (← rowGet params "Height")).map (· * mm)
  let rows ← pyIntParse (← rowGet params "Rows")
  match page_size with
  | none => .error "TypeError: NoneType object is not subscriptable (self.page_size[1], line 130)"
  | some ps =>
      .ok { name := name, pageW := ps.1, pageH := ps.2, left := left,
            hor_pitch := hor_pitch, width := width, columns := columns.toNat,
            top := top, ver_pitch := ver_pitch, height := height,
            rows := rows.toNat }

/-- The `[cls(dict(zip(header, row))) for row in reader]` comprehension
(lines 75-76 and 224-225): construct one instance per data row, left to
right; the first construction error propagates out of `read_file`. -/
def constructRows {β : Type} (f : List (String × String) → Except String β) :
    List (List (String × String)) → Except String (List β)
  | [] => .ok []
  | row :: rest => do
      let b ← f row
      let bs ← constructRows f rest
      .ok (b :: bs)

/-- Embeds `LabelType.read_file` (lines 57-83) from the raw file contents: a
failing header check yields the empty dictionary without constructing any
row; otherwise every row is constructed (a construction error propagates out
of `read_file`) and the dictionary keys rows by name, with the first row also
keyed under `None`. Refines `LabelType.readFile`, which starts from the rows
already constructed. -/
def LabelType.readFileRaw (pageSizes : List (String × ℚ × ℚ))
    (header : List String) (rawRows : List (List (String × String))) :
    Except String (Option String → Option LabelType) :=
  if 0 < LabelType.checkHeader header then
    .ok fun _ => none
  else do
    let rows ← constructRows (LabelType.init pageSizes) rawRows
    .ok fun key =>
      match key with
      | some n => (rows.filter fun lt => lt.name == n).getLast?
      | none => rows.head?

/-- Embeds `get_label_type` (lines 394-411) from the raw file contents: read
the file (construction errors propagate), then look the requested name up,
logging and exiting non-zero when absent. -/
def get_label_typeRaw (pageSizes : List (String × ℚ × ℚ))
    (header : List String) (rawRows : List (List (String × String)))
    (name : Option String) : Except String LabelType := do
  let dict ← LabelType.readFileRaw pageSizes header rawRows
  match dict name with
  | none => .error "SystemExit: 1 (label type not known)"
  | some lt => .ok lt

/-- Scanner mode while parsing a `%`-format string: plain text, just after a
`%`, inside a `%(name` directive accumulating the name, or just after the
closing parenthesis awaiting the conversion character. -/
inductive PMode where
  | text
  | afterPct
  | inName (acc : List Char)
  | afterName (name : List Char)

/-- One left-to-right pass of the `%`-format scanner. -/
def parseFmtGo : PMode → List Char → List Tok
  | .text, [] => []
  | .text, c :: rest =>
      if c = '%' then parseFmtGo .afterPct rest
      else Tok.lit (String.mk [c]) :: parseFmtGo .text rest
  | .afterPct, [] => [Tok.bad]
  | .afterPct, c :: rest =>
      if c = '%' then Tok.lit "%" :: parseFmtGo .text rest
      else if c = '(' then parseFmtGo (.inName []) rest
      else [Tok.bad]
  | .inName _, [] => [Tok.bad]
  | .inName acc, c :: rest =>
      if c = ')' then parseFmtGo (.afterName acc) rest
      else parseFmtGo (.inName (acc ++ [c])) rest
  | .afterName _, [] => [Tok.bad]
  | .afterName nm, conv :: rest =>
      Tok.fld (String.mk nm) conv :: parseFmtGo .text rest

/-- Parses a `%`-format string into tokens: `%%` is a literal percent,
`%(name)X` a field reference with one conversion character, any other `%`
directive (including width or precision modifiers and non-mapping directives,
which no template in this repository uses) is `bad`. Python stores the raw
string and fails only at `%` application time; storing the parsed form, with
`bad` tokens that `renderFmt` rejects, preserves that behaviour. -/
def parseFmt (cs : List Char) : List Tok :=
  parseFmtGo PMode.text cs

/-- Embeds `LabelField.__init__` (lines 254-284) from the raw row dictionary:
the four geometry fractions parse with `float()` (`ValueError` aborts), the
format template is stored (carried here in parsed form), and of the style
attributes only a non-empty font size involves a numeric parse (line 275);
colour resolution and the remaining style attributes are collaborator calls
carried opaquely. -/
def LabelField.init (lt : LabelType) (params : List (String × String)) :
    Except String LabelField := do
  let x ← (pyFloatParse (← rowGet params "X")).map (· * lt.width)
  let y ← (pyFloatParse (← rowGet params "Y")).map (· * lt.height)
  let width ← (pyFloatParse (← rowGet params "Width")).map (· * lt.width)
  let height ← (pyFloatParse (← rowGet params "Height")).map (· * lt.height)
  let fmt ← rowGet params "Format"
  let _ ← rowGet params "Colour"
  let _ ← rowGet params "Font family"
  let fontSize ← rowGet params "Font size"
  let _ ← (if fontSize = "" then (pure 0 : Except String ℚ)
           else pyFloatParse fontSize)
  let _ ← rowGet params "Layout"
  .ok { x := x, y := y, width := width, height := height,
        format := parseFmt fmt.toList }

/-- Embeds `LabelField.read_file` (lines 207-225) from the raw file contents:
a failing header check is only logged and yields the empty field list; with a
good header the comprehension constructs every field, so a construction error
propagates. Refines `LabelField.readFile`, which starts from constructed
fields. -/
def LabelField.readFileRaw (lt : LabelType) (header : List String)
    (rawRows : List (List (String × String))) : Except String (List LabelField) :=
  if 0 < LabelField.checkHeader header then .ok []
  else constructRows (LabelField.init lt) rawRows

/-- Embeds `create_labels` (lines 436-446) from the raw file contents, with
`read_beers` inlined per line 445: label-type lookup (construction errors and
the exit on a failed lookup propagate), field-file read, record expansion,
`add_labels`, `canvas.save()`; the canvas trace is the result. The `Canvas`
is only created on line 444, after both configuration files were read. -/
def create_labels (pageSizes : List (String × ℚ × ℚ)) (ltHeader : List String)
    (ltRawRows : List (List (String × String))) (ltName : Option String)
    (fHeader : List String) (fRawRows : List (List (String × String)))
    (quantity enum : Option String) (dataRows : List Record) :
    Except String (List CanvasOp) := do
  let lt ← get_label_typeRaw pageSizes ltHeader ltRawRows ltName
  let fields ← LabelField.readFileRaw lt fHeader fRawRows
  let records ← read_beers quantity enum dataRows
  add_labels lt fields records

/-- The spec's four-step `slotOrigin` algorithm (spec section 4.1), written
from the spec's words for comparison with `LabelType.slotOrigin`:
`positionOnPage = i mod slotsPerPage`, `rowFromTop = positionOnPage div
columns`, `row = rows - 1 - (rowFromTop mod rows)`, `column = positionOnPage
mod columns`, origin `(leftOffset + column * horizontalPitch,
bottomOffset + row * verticalPitch)`. -/
def slotOriginSpec (lt : LabelType) (i : ℕ) : ℚ × ℚ :=
  let p := i % lt.labels_per_page
  let rowFromTop := p / lt.columns
  let row : ℕ := lt.rows - 1 - rowFromTop % lt.rows
  let column : ℕ := p % lt.columns
  (lt.left + (column : ℚ) * lt.hor_pitch, lt.bottom + (row : ℚ) * lt.ver_pitch)

/-- Whether an `Except` computation ended in an error. -/
def isErr {ε α : Type} : Except ε α → Bool
  | .error _ => true
  | .ok _ => false

instance {ε α : Type} [DecidableEq ε] [DecidableEq α] : DecidableEq (Except ε α)
  | .error a, .error b =>
      if h : a = b then .isTrue (by rw [h])
      else .isFalse (by intro hc; cases hc; exact h rfl)
  | .error _, .ok _ => .isFalse (by intro hc; cases hc)
  | .ok _, .error _ => .isFalse (by intro hc; cases hc)
  | .ok a, .ok b =>
      if h : a = b then .isTrue (by rw [h])
      else .isFalse (by intro hc; cases hc; exact h rfl)

/-- A concrete 3-column, 2-row label type used by witnesses. -/
def testLT : LabelType :=
  { name := "Test", pageW := 595, pageH := 842, left := 10, hor_pitch := 30,
    width := 25, columns := 3, top := 12, ver_pitch := 40, height := 35,
    rows := 2 }

/-- A record from the spec's quantity-expansion example. -/
def ipaRec : Record := [("beer", PyVal.str "IPA"), ("qty", PyVal.str "3")]

/-- A record whose quantity column holds a negative integer literal. -/
def negRec : Record := [("beer", PyVal.str "Mild"), ("qty", PyVal.str "-2")]

/-- A record whose quantity column holds a non-numeric value. -/
def badRec : Record := [("beer", PyVal.str "Stout"), ("qty", PyVal.str "three")]

/-- A concrete field whose template references the `beer` record column. -/
def testField : LabelField :=
  { x := 1, y := 2, width := 10, height := 5, format := [Tok.fld "beer" 's'] }

/-- A one-entry page-size table standing for the reportlab `pagesizes`
attributes: A4 in canvas units. -/
def testPageSizes : List (String × ℚ × ℚ) :=
  [("A4", 210 * mm, 297 * mm)]

/-- A well-formed raw label-type row (dimensions in millimetres). -/
def rawLabelRow : List (String × String) :=
  [("Name", "Test"), ("Page size", "A4"), ("Left", "10"),
   ("Horizontal Pitch", "30"), ("Width", "25"), ("Columns", "3"),
   ("Top", "12"), ("Vertial Pitch", "40"), ("Height", "35"), ("Rows", "2")]

/-- The same row with a page-size name absent from the table. -/
def unknownPageRow : List (String × String) :=
  [("Name", "Test"), ("Page size", "Quarto"), ("Left", "10"),
   ("Horizontal Pitch", "30"), ("Width", "25"), ("Columns", "3"),
   ("Top", "12"), ("Vertial Pitch", "40"), ("Height", "35"), ("Rows", "2")]

/-- The same row with a malformed numeric field. -/
def badNumericRow : List (String × String) :=
  [("Name", "Test"), ("Page size", "A4"), ("Left", "wide"),
   ("Horizontal Pitch", "30"), ("Width", "25"), ("Columns", "3"),
   ("Top", "12"), ("Vertial Pitch", "40"), ("Height", "35"), ("Rows", "2")]

/-- A well-formed raw field row whose template references `beer`. -/
def rawFieldRow : List (String × String) :=
  [("X", "0.1"), ("Y", "0.2"), ("Width", "0.8"), ("Height", "0.3"),
   ("Font family", ""), ("Font size", ""), ("Colour", ""), ("Layout", ""),
   ("Format", "%(beer)s")]

/-- The same field row with a malformed numeric fraction. -/
def badFieldRow : List (String × String) :=
  [("X", "x"), ("Y", "0.2"), ("Width", "0.8"), ("Height", "0.3"),
   ("Font family", ""), ("Font size", ""), ("Colour", ""), ("Layout", ""),
   ("Format", "%(beer)s")]

lemma mod_lpp_mod_columns (i c r : ℕ) : i % (r * c) % c = i % c :=
  Nat.mod_mod_of_dvd i (dvd_mul_left c r)

lemma mod_lpp_div_mod_rows (i c r : ℕ) :
    i % (r * c) / c % r = i / c % r := by
  rw [mul_comm r c, Nat.mod_mul_right_div_self]
  exact Nat.mod_mod_of_dvd _ dvd_rfl

/-- C1: for every label index and every valid geometry (at least one column
and one row, positive pitches), the slot origin computed by `start_label`
equals the spec's four-step algorithm, and with two rows label index 0 lands
on the topmost physical row, at `bottom + 1 * ver_pitch`, not at `bottom`. -/
theorem slotOrigin_matches_spec (lt : LabelType)
    (hc : 1 ≤ lt.columns) (hr : 1 ≤ lt.rows)
    (hdims : 0 < lt.hor_pitch ∧ 0 < lt.ver_pitch) (i : ℕ) :
    lt.slotOrigin i = slotOriginSpec lt i
    ∧ (lt.rows = 2 → (lt.slotOrigin 0).2 = lt.bottom + 1 * lt.ver_pitch
        ∧ (lt.slotOrigin 0).2 ≠ lt.bottom) := by
  refine ⟨?_, fun h2 => ⟨?_, ?_⟩⟩
  · simp only [LabelType.slotOrigin, slotOriginSpec, LabelType.labels_per_page,
      mod_lpp_mod_columns, mod_lpp_div_mod_rows]
  · simp [LabelType.slotOrigin, h2]
  · have hv := hdims.2
    simp [LabelType.slotOrigin, h2]
    intro hc
    linarith

/-- Witness for C1 at the concrete 3 x 2 geometry and label index 7. -/
theorem slotOrigin_matches_spec_witness :
    testLT.slotOrigin 7 = slotOriginSpec testLT 7
    ∧ (testLT.rows = 2 →
        (testLT.slotOrigin 0).2 = testLT.bottom + 1 * testLT.ver_pitch
        ∧ (testLT.slotOrigin 0).2 ≠ testLT.bottom) :=
  slotOrigin_matches_spec testLT (by decide) (by decide)
    (by norm_num [testLT]) 7

/-- C8: over any valid geometry with positive pitches, the slot-origin
sequence is periodic with period `labels_per_page`, and the origins of the
indices of one page are pairwise distinct. -/
theorem slotOrigin_periodic_and_injective (lt : LabelType)
    (hc : 1 ≤ lt.columns) (hr : 1 ≤ lt.rows)
    (hh : 0 < lt.hor_pitch) (hv : 0 < lt.ver_pitch) :
    (∀ i : ℕ, lt.slotOrigin (i + lt.labels_per_page) = lt.slotOrigin i)
    ∧ ∀ i j : ℕ, i < lt.labels_per_page → j < lt.labels_per_page → i ≠ j →
        lt.slotOrigin i ≠ lt.slotOrigin j := by
  have hc0 : 0 < lt.columns := hc
  constructor
  · intro i
    have h1 : (i + lt.labels_per_page) % lt.columns = i % lt.columns := by
      simp only [LabelType.labels_per_page, mul_comm lt.rows lt.columns]
      exact Nat.add_mul_mod_self_left i lt.columns lt.rows
    have h2 : (i + lt.labels_per_page) / lt.columns % lt.rows
        = i / lt.columns % lt.rows := by
      simp only [LabelType.labels_per_page, mul_comm lt.rows lt.columns]
      rw [Nat.add_mul_div_left i lt.rows hc0, Nat.add_mod_right]
    simp only [LabelType.slotOrigin, h1, h2]
  · intro i j hi hj hne heq
    simp only [LabelType.slotOrigin, Prod.mk.injEq] at heq
    obtain ⟨hx, hy⟩ := heq
    have hxc : i % lt.columns = j % lt.columns := by
      have h1 := add_left_cancel hx
      have h2 := mul_right_cancel₀ (ne_of_gt hh) h1
      exact_mod_cast h2
    have hidiv : i / lt.columns < lt.rows := by
      rw [Nat.div_lt_iff_lt_mul hc0]
      simpa [LabelType.labels_per_page, mul_comm] using hi
    have hjdiv : j / lt.columns < lt.rows := by
      rw [Nat.div_lt_iff_lt_mul hc0]
      simpa [LabelType.labels_per_page, mul_comm] using hj
    have hyr : lt.rows - 1 - i / lt.columns % lt.rows
        = lt.rows - 1 - j / lt.columns % lt.rows := by
      have h1 := add_left_cancel hy
      have h2 := mul_right_cancel₀ (ne_of_gt hv) h1
      exact_mod_cast h2
    rw [Nat.mod_eq_of_lt hidiv, Nat.mod_eq_of_lt hjdiv] at hyr
    have hdiveq : i / lt.columns = j / lt.columns := by omega
    have e1 := Nat.div_add_mod i lt.columns
    have e2 := Nat.div_add_mod j lt.columns
    rw [hdiveq, hxc] at e1
    exact hne (e1.symm.trans e2)

/-- Witness for C8 at the concrete 3 x 2 geometry: index 6 wraps back onto
slot 0 and slots 0 and 1 are distinct. -/
theorem slotOrigin_periodic_and_injective_witness :
    testLT.slotOrigin (0 + testLT.labels_per_page) = testLT.slotOrigin 0
    ∧ testLT.slotOrigin 0 ≠ testLT.slotOrigin 1 := by
  have h := slotOrigin_periodic_and_injective testLT (by decide) (by decide)
    (by norm_num [testLT]) (by norm_num [testLT])
  exact ⟨h.1 0, h.2 0 1 (by decide) (by decide) (by decide)⟩

/-- C4: `start_label` begins its emitted operations with a page commit exactly
when `0 < i` and `i % labels_per_page = 0`; with 3 columns and 2 rows, indices
0 through 5 are not boundaries and index 6 is. -/
theorem startLabel_page_boundary (lt : LabelType) :
    (∀ i : ℕ, (lt.startLabel i).head? = some CanvasOp.showPage
        ↔ (0 < i ∧ i % lt.labels_per_page = 0))
    ∧ (lt.columns = 3 → lt.rows = 2 →
        (∀ j : ℕ, j < 6 → (lt.startLabel j).head? ≠ some CanvasOp.showPage)
        ∧ (lt.startLabel 6).head? = some CanvasOp.showPage) := by
  have main : ∀ i : ℕ, (lt.startLabel i).head? = some CanvasOp.showPage
      ↔ (0 < i ∧ i % lt.labels_per_page = 0) := by
    intro i
    by_cases h : 0 < i ∧ i % lt.labels_per_page = 0
    · simp [LabelType.startLabel, h]
    · simp [LabelType.startLabel, h]
  refine ⟨main, fun h3 h2 => ?_⟩
  have hlpp : lt.labels_per_page = 6 := by
    simp [LabelType.labels_per_page, h3, h2]
  constructor
  · intro j hj hcontra
    have hb := (main j).1 hcontra
    rw [hlpp] at hb
    omega
  · exact (main 6).2 (by rw [hlpp]; omega)

/-- Witness for C4 at the concrete 3 x 2 geometry. -/
theorem startLabel_page_boundary_witness :
    (∀ j : ℕ, j < 6 → (testLT.startLabel j).head? ≠ some CanvasOp.showPage)
    ∧ (testLT.startLabel 6).head? = some CanvasOp.showPage :=
  (startLabel_page_boundary testLT).2 rfl rfl

lemma lookupField_setField_same (r : Record) (k : String) (v : PyVal) :
    lookupField (setField r k v) k = some v := by
  induction r with
  | nil => simp [setField, lookupField]
  | cons p rest ih =>
    obtain ⟨k0, v0⟩ := p
    by_cases h : k0 = k
    · simp [setField, h, lookupField]
    · simp [setField, h, lookupField, ih]

lemma lookupField_setField_other (r : Record) (k name : String) (v : PyVal)
    (h : name ≠ k) :
    lookupField (setField r k v) name = lookupField r name := by
  induction r with
  | nil => simp [setField, lookupField, Ne.symm h]
  | cons p rest ih =>
    obtain ⟨k0, v0⟩ := p
    by_cases h0 : k0 = k
    · subst h0
      simp [setField, lookupField, Ne.symm h]
    · simp [setField, h0, lookupField, ih]

/-- C3 counterexample: on the spec's own example record, the expanded records
carry the counter as the Python int 1, 2, 3, not as the string values "1",
"2", "3" the claim asserts. -/
theorem quantity_counter_is_int_not_string :
    repeat_casks "qty" "num" [ipaRec]
      = .ok [ipaRec ++ [("num", PyVal.int 1)], ipaRec ++ [("num", PyVal.int 2)],
             ipaRec ++ [("num", PyVal.int 3)]]
    ∧ repeat_casks "qty" "num" [ipaRec]
      ≠ .ok [ipaRec ++ [("num", PyVal.str "1")], ipaRec ++ [("num", PyVal.str "2")],
             ipaRec ++ [("num", PyVal.str "3")]]
    ∧ lookupField (ipaRec ++ [("num", PyVal.int 1)]) "num" = some (PyVal.int 1)
    ∧ PyVal.int 1 ≠ PyVal.str "1" := by decide

/-- C3 amended: a record whose quantity parses as integer q expands to the q
records obtained by setting the counter field to the Python ints 1..q (other
fields, the quantity included, preserved); q = 0 yields nothing; omitting
either option name passes the stream through unchanged. -/
theorem quantity_expansion_amended (qf cf : String) (r : Record) (v : PyVal) (q : Int)
    (hv : lookupField r qf = some v) (hq : pyIntOfVal v = .ok q) :
    expandRow qf cf r
      = .ok ((List.range q.toNat).map fun k => setField r cf (.int ((k : Int) + 1)))
    ∧ repeat_casks qf cf [r]
      = .ok ((List.range q.toNat).map fun k => setField r cf (.int ((k : Int) + 1)))
    ∧ (q = 0 → repeat_casks qf cf [r] = .ok [])
    ∧ (∀ k : Int, lookupField (setField r cf (.int k)) cf = some (.int k))
    ∧ (∀ (name : String) (k : Int), name ≠ cf →
        lookupField (setField r cf (.int k)) name = lookupField r name)
    ∧ (∀ (recs : List Record) (eo : Option String), read_beers none eo recs = .ok recs)
    ∧ (∀ (recs : List Record) (qo : Option String), read_beers qo none recs = .ok recs) := by
  have h1 : expandRow qf cf r
      = .ok ((List.range q.toNat).map fun k => setField r cf (.int ((k : Int) + 1))) := by
    simp [expandRow, hv, hq]
  refine ⟨h1, ?_, ?_, ?_, ?_, ?_, ?_⟩
  · simp [repeat_casks, h1, bind, Except.bind]
  · intro h0
    simp [repeat_casks, h1, h0, bind, Except.bind]
  · intro k
    exact lookupField_setField_same r cf (.int k)
  · intro name k hne
    exact lookupField_setField_other r cf name (.int k) hne
  · intro recs eo
    rfl
  · intro recs qo
    cases qo <;> rfl

/-- Witness for C3 amended on the spec's example record. -/
theorem quantity_expansion_amended_witness :
    lookupField ipaRec "qty" = some (PyVal.str "3")
    ∧ pyIntOfVal (PyVal.str "3") = .ok 3
    ∧ repeat_casks "qty" "num" [ipaRec]
        = .ok ((List.range (Int.toNat 3)).map fun k =>
            setField ipaRec "num" (.int ((k : Int) + 1))) :=
  ⟨by decide, by decide,
    (quantity_expansion_amended "qty" "num" ipaRec (PyVal.str "3") 3
      (by decide) (by decide)).2.1⟩

lemma repeat_casks_error_of_mem (qf cf : String) (r : Record)
    (herr : isErr (expandRow qf cf r) = true) :
    ∀ rows : List Record, r ∈ rows → isErr (repeat_casks qf cf rows) = true := by
  intro rows
  induction rows with
  | nil => intro h; simp at h
  | cons s rest ih =>
    intro hmem
    rcases List.mem_cons.1 hmem with h | h
    · subst h
      cases he : expandRow qf cf r with
      | error e => simp [repeat_casks, he, isErr, bind, Except.bind]
      | ok l => rw [he] at herr; simp [isErr] at herr
    · cases he : expandRow qf cf s with
      | error e => simp [repeat_casks, he, isErr, bind, Except.bind]
      | ok l =>
        have hrest := ih h
        cases hrc : repeat_casks qf cf rest with
        | error e => simp [repeat_casks, he, hrc, isErr, bind, Except.bind]
        | ok l2 => rw [hrc] at hrest; simp [isErr] at hrest

/-- C7 counterexample: the quantity value "-2" does not parse as a
non-negative integer, yet expansion raises no error: Python `int` accepts it
and `range(-2)` is empty, so the record silently yields zero labels. -/
theorem negative_quantity_no_error :
    pyIntOfVal (PyVal.str "-2") = .ok (-2)
    ∧ repeat_casks "qty" "num" [negRec] = .ok []
    ∧ isErr (repeat_casks "qty" "num" [negRec]) = false := by decide

/-- C7 amended: when the quantity value fails Python integer parsing
altogether, expansion raises the fatal `ValueError` and the whole stream
aborts: no records are yielded for that input and no default is substituted. -/
theorem quantity_parse_error_amended (qf cf : String) (r : Record) (v : PyVal)
    (e : String) (hv : lookupField r qf = some v) (he : pyIntOfVal v = .error e) :
    expandRow qf cf r = .error e
    ∧ repeat_casks qf cf [r] = .error e
    ∧ ∀ rows : List Record, r ∈ rows → isErr (repeat_casks qf cf rows) = true := by
  have h1 : expandRow qf cf r = .error e := by simp [expandRow, hv, he]
  refine ⟨h1, ?_, ?_⟩
  · simp [repeat_casks, h1, bind, Except.bind]
  · exact repeat_casks_error_of_mem qf cf r (by simp [h1, isErr])

/-- Witness for C7 amended on a record with the non-numeric quantity "three". -/
theorem quantity_parse_error_amended_witness :
    lookupField badRec "qty" = some (PyVal.str "three")
    ∧ pyIntOfVal (PyVal.str "three")
        = .error "ValueError: invalid literal for int: three"
    ∧ repeat_casks "qty" "num" [badRec]
        = .error "ValueError: invalid literal for int: three" :=
  ⟨by decide, by decide,
    (quantity_parse_error_amended "qty" "num" badRec (PyVal.str "three")
      "ValueError: invalid literal for int: three" (by decide) (by decide)).2.1⟩

/-- C10: a quantity that parses as a negative integer yields zero records and
no error; the stream silently continues with the remaining input records. -/
theorem negative_quantity_yields_nothing (qf cf : String) (r : Record) (v : PyVal)
    (q : Int) (hv : lookupField r qf = some v) (hq : pyIntOfVal v = .ok q)
    (hneg : q < 0) :
    expandRow qf cf r = .ok []
    ∧ ∀ rest : List Record, repeat_casks qf cf (r :: rest) = repeat_casks qf cf rest := by
  have htn : q.toNat = 0 := Int.toNat_of_nonpos (le_of_lt hneg)
  have h1 : expandRow qf cf r = .ok [] := by simp [expandRow, hv, hq, htn]
  refine ⟨h1, fun rest => ?_⟩
  cases hrc : repeat_casks qf cf rest with
  | error e => simp [repeat_casks, h1, hrc, bind, Except.bind]
  | ok l => simp [repeat_casks, h1, hrc, bind, Except.bind]

/-- Witness for C10 on the record with quantity "-2". -/
theorem negative_quantity_yields_nothing_witness :
    lookupField negRec "qty" = some (PyVal.str "-2")
    ∧ pyIntOfVal (PyVal.str "-2") = .ok (-2)
    ∧ ((-2 : Int) < 0)
    ∧ expandRow "qty" "num" negRec = .ok [] :=
  ⟨by decide, by decide, by decide,
    (negative_quantity_yields_nothing "qty" "num" negRec (PyVal.str "-2") (-2)
      (by decide) (by decide) (by decide)).1⟩

lemma renderFmt_error_of_missing (f : Fmt) (r : Record) (name : String)
    (href : name ∈ fmtRefs f) (habs : lookupField r name = none) :
    isErr (renderFmt f r) = true := by
  induction f with
  | nil => simp [fmtRefs] at href
  | cons t rest ih =>
    cases t with
    | lit s =>
      have href' : name ∈ fmtRefs rest := by simpa [fmtRefs] using href
      have hrest := ih href'
      cases hrr : renderFmt rest r with
      | error e => simp [renderFmt, hrr, Except.map, isErr]
      | ok v => rw [hrr] at hrest; simp [isErr] at hrest
    | fld n conv =>
      have hsplit : name = n ∨ name ∈ fmtRefs rest := by
        simpa [fmtRefs] using href
      rcases hsplit with h | h
      · subst h
        simp [renderFmt, habs, isErr]
      · cases hlk : lookupField r n with
        | none => simp [renderFmt, hlk, isErr]
        | some v =>
          cases hcv : convVal conv v with
          | error e => simp [renderFmt, hlk, hcv, isErr]
          | ok s =>
            have hrest := ih h
            cases hrr : renderFmt rest r with
            | error e => simp [renderFmt, hlk, hcv, hrr, Except.map, isErr]
            | ok w => rw [hrr] at hrest; simp [isErr] at hrest
    | bad => simp [renderFmt, isErr]

lemma render_error_of_missing (f : LabelField) (r : Record) (name : String)
    (href : name ∈ fmtRefs f.format) (habs : lookupField r name = none) :
    isErr (f.render r) = true := by
  have h := renderFmt_error_of_missing f.format r name href habs
  cases hrr : renderFmt f.format r with
  | error e => simp [LabelField.render, hrr, Except.map, isErr]
  | ok v => rw [hrr] at h; simp [isErr] at h

lemma renderFields_error (fields : List LabelField) (r : Record) (f : LabelField)
    (hmem : f ∈ fields) (herr : isErr (f.render r) = true) :
    isErr (renderFields fields r) = true := by
  induction fields with
  | nil => simp at hmem
  | cons g rest ih =>
    rcases List.mem_cons.1 hmem with h | h
    · subst h
      cases hg : f.render r with
      | error e => simp [renderFields, hg, isErr, bind, Except.bind]
      | ok op => rw [hg] at herr; simp [isErr] at herr
    · cases hg : g.render r with
      | error e => simp [renderFields, hg, isErr, bind, Except.bind]
      | ok op =>
        have hrest := ih h
        cases hrf : renderFields rest r with
        | error e => simp [renderFields, hg, hrf, isErr, bind, Except.bind]
        | ok ops => rw [hrf] at hrest; simp [isErr] at hrest

lemma labelLoop_error (lt : LabelType) (fields : List LabelField) (r : Record)
    (herr : isErr (renderFields fields r) = true) :
    ∀ (records : List Record) (i : ℕ), r ∈ records →
      isErr (labelLoop lt fields i records) = true := by
  intro records
  induction records with
  | nil => intro i h; simp at h
  | cons s rest ih =>
    intro i hmem
    rcases List.mem_cons.1 hmem with h | h
    · subst h
      cases hrf : renderFields fields r with
      | error e => simp [labelLoop, hrf, isErr, bind, Except.bind]
      | ok ops => rw [hrf] at herr; simp [isErr] at herr
    · cases hrf : renderFields fields s with
      | error e => simp [labelLoop, hrf, isErr, bind, Except.bind]
      | ok ops =>
        have hrest := ih (i + 1) h
        cases hll : labelLoop lt fields (i + 1) rest with
        | error e => simp [labelLoop, hrf, hll, isErr, bind, Except.bind]
        | ok l => rw [hll] at hrest; simp [isErr] at hrest

/-- C6: a field whose template references a record column absent from the
record fails to render with a fatal error (no default substituted, no drawing
emitted), and the error propagates through the rendering loop: any run whose
field list and record stream contain that pair aborts. -/
theorem missing_template_field_fatal (f : LabelField) (r : Record) (name : String)
    (href : name ∈ fmtRefs f.format) (habs : lookupField r name = none) :
    isErr (f.render r) = true
    ∧ ∀ (lt : LabelType) (fields : List LabelField) (records : List Record),
        f ∈ fields → r ∈ records → isErr (add_labels lt fields records) = true := by
  have hrender := render_error_of_missing f r name href habs
  refine ⟨hrender, fun lt fields records hf hr => ?_⟩
  have hrf := renderFields_error fields r f hf hrender
  have hll := labelLoop_error lt fields r hrf records 0 hr
  match records, hr with
  | s :: rest, _ =>
    cases hl : labelLoop lt fields 0 (s :: rest) with
    | error e => simp [add_labels, hl, isErr, bind, Except.bind]
    | ok l => rw [hl] at hll; simp [isErr] at hll

/-- Witness for C6 with a template referencing `beer` against a record that
lacks that column. -/
theorem missing_template_field_fatal_witness :
    isErr (testField.render [("name", PyVal.str "x")]) = true
    ∧ isErr (add_labels testLT [testField] [[("name", PyVal.str "x")]]) = true := by
  have h := missing_template_field_fatal testField [("name", PyVal.str "x")] "beer"
    (by decide) (by decide)
  exact ⟨h.1, h.2 testLT [testField] [[("name", PyVal.str "x")]]
    (by simp) (by simp)⟩

lemma labelLoop_no_fields (lt : LabelType) :
    ∀ (records : List Record) (i : ℕ), ∃ ops : List CanvasOp,
      labelLoop lt [] i records = .ok ops
      ∧ ∀ x y w h t, CanvasOp.drawParagraph x y w h t ∉ ops := by
  intro records
  induction records with
  | nil => intro i; exact ⟨[], rfl, by simp⟩
  | cons r rest ih =>
    intro i
    obtain ⟨ops, hops, hnd⟩ := ih (i + 1)
    refine ⟨lt.startLabel i ++ [] ++ LabelType.endLabel ++ ops, ?_, ?_⟩
    · simp [labelLoop, renderFields, hops, bind, Except.bind]
    · intro x y w h t
      by_cases hb : 0 < i ∧ i % lt.labels_per_page = 0 <;>
        simp [LabelType.startLabel, LabelType.endLabel, hb, hnd x y w h t]

lemma add_labels_no_fields (lt : LabelType) (r : Record) (rest : List Record) :
    ∃ ops : List CanvasOp,
      add_labels lt [] (r :: rest) = .ok ops
      ∧ CanvasOp.showPage ∈ ops
      ∧ ops.getLast? = some CanvasOp.showPage
      ∧ ∀ x y w h t, CanvasOp.drawParagraph x y w h t ∉ ops := by
  obtain ⟨lops, hl, hnd⟩ := labelLoop_no_fields lt (r :: rest) 0
  refine ⟨lt.startLabelRun ++ lops ++ LabelType.endLabelRun, ?_, ?_, ?_, ?_⟩
  · simp [add_labels, hl, bind, Except.bind]
  · simp [LabelType.endLabelRun]
  · simp [LabelType.endLabelRun, List.getLast?_append]
  · intro x y w h t
    simp [LabelType.startLabelRun, LabelType.endLabelRun, hnd x y w h t]

/-- C2: `add_labels` on the empty record stream does not commit an empty page
and succeed as the spec asserts — it raises `UnboundLocalError`, because the
loop variable feeding `end_label_run(canvas, i + 1)` is never bound. On any
non-empty stream the final `showPage` commit is indeed the unconditional last
canvas operation. -/
theorem add_labels_empty_stream_bug (lt : LabelType) (fields : List LabelField) :
    add_labels lt fields []
      = .error "UnboundLocalError: local variable i referenced before assignment"
    ∧ ∀ (r : Record) (rest : List Record), ∃ ops : List CanvasOp,
        add_labels lt [] (r :: rest) = .ok ops
        ∧ ops.getLast? = some CanvasOp.showPage := by
  refine ⟨rfl, fun r rest => ?_⟩
  obtain ⟨ops, hok, _, hlast, _⟩ := add_labels_no_fields lt r rest
  exact ⟨ops, hok, hlast⟩

lemma get_label_type_isErr_iff (header : List String) (rows : List LabelType)
    (key : Option String) :
    isErr (get_label_type header rows key) = true
      ↔ LabelType.readFile header rows key = none := by
  cases hk : LabelType.readFile header rows key with
  | none => simp [get_label_type, hk, isErr]
  | some lt => simp [get_label_type, hk, isErr]

/-- C9: with a well-formed label-type file header, an absent label-type name
resolves to the first data row (the `None` key installed by `read_file`), and
the exit-causing lookup error occurs exactly when the requested name is
missing from the file — or, for an absent name, when the file has no data
rows at all. -/
theorem default_label_type_lookup (header : List String) (rows : List LabelType)
    (hh : LabelType.checkHeader header = 0) :
    (∀ (lt0 : LabelType) (rest : List LabelType), rows = lt0 :: rest →
        get_label_type header rows none = .ok lt0)
    ∧ (∀ n : String,
        isErr (get_label_type header rows (some n)) = true
          ↔ n ∉ rows.map LabelType.name)
    ∧ (isErr (get_label_type header rows none) = true ↔ rows = []) := by
  refine ⟨?_, ?_, ?_⟩
  · intro lt0 rest hrows
    subst hrows
    simp [get_label_type, LabelType.readFile, hh]
  · intro n
    rw [get_label_type_isErr_iff]
    simp only [LabelType.readFile, hh]
    rw [if_neg (by omega)]
    rw [List.getLast?_eq_none_iff, List.filter_eq_nil_iff]
    simp
  · rw [get_label_type_isErr_iff]
    simp only [LabelType.readFile, hh]
    rw [if_neg (by omega)]
    simp

/-- Witness for C9: the correct header together with one data row makes the
absent-name lookup return that row. -/
theorem default_label_type_lookup_witness :
    LabelType.checkHeader LabelType.COLUMNS = 0
    ∧ get_label_type LabelType.COLUMNS [testLT] none = .ok testLT :=
  ⟨by decide,
    (default_label_type_lookup LabelType.COLUMNS [testLT] (by decide)).1
      testLT [] rfl⟩

lemma constructRows_error_of_mem {β : Type}
    (f : List (String × String) → Except String β)
    (row : List (String × String)) (e : String) (hf : f row = .error e) :
    ∀ rows : List (List (String × String)), row ∈ rows →
      isErr (constructRows f rows) = true := by
  intro rows
  induction rows with
  | nil => intro h; simp at h
  | cons s rest ih =>
    intro hmem
    rcases List.mem_cons.1 hmem with h | h
    · subst h
      simp [constructRows, hf, isErr, bind, Except.bind]
    · cases hs : f s with
      | error e2 => simp [constructRows, hs, isErr, bind, Except.bind]
      | ok b =>
        have hrest := ih h
        cases hr : constructRows f rest with
        | error e2 => simp [constructRows, hs, hr, isErr, bind, Except.bind]
        | ok bs => rw [hr] at hrest; simp [isErr] at hrest

/-- C5 counterexample: a field-configuration header missing required columns
does not abort the run — `create_labels` still renders and commits a label
page (the trace contains the `showPage` commit), merely with an empty field
list and hence no field content. -/
theorem field_header_error_renders_pages :
    0 < LabelField.checkHeader ["X"]
    ∧ ∃ ops : List CanvasOp,
        create_labels testPageSizes LabelType.COLUMNS [rawLabelRow] none ["X"]
          [rawFieldRow] none none [[("beer", PyVal.str "IPA")]] = .ok ops
        ∧ CanvasOp.showPage ∈ ops
        ∧ ∀ x y w h t, CanvasOp.drawParagraph x y w h t ∉ ops := by
  refine ⟨by decide, ?_⟩
  have hinit : ∃ lt0, LabelType.init testPageSizes rawLabelRow = .ok lt0 :=
    ⟨_, rfl⟩
  obtain ⟨lt0, hlt0⟩ := hinit
  obtain ⟨ops, hops, hsp, _, hnd⟩ :=
    add_labels_no_fields lt0 [("beer", PyVal.str "IPA")] []
  refine ⟨ops, ?_, hsp, hnd⟩
  have hchk : LabelType.checkHeader LabelType.COLUMNS = 0 := by decide
  have hfchk : LabelField.checkHeader ["X"] = 8 := by decide
  simp [create_labels, get_label_typeRaw, LabelType.readFileRaw,
    LabelField.readFileRaw, constructRows, hlt0, hchk, hfchk, read_beers,
    hops, bind, Except.bind]

/-- C5 amended: unknown page-size names and malformed numeric fields abort
inside configuration reading, before any canvas operation — a `LabelType` or
`LabelField` construction error (`ValueError` from `float()`/`int()`,
`TypeError` from the `None` page size at line 130) propagates out of
`read_file`; a label-type header missing required columns aborts via the
failed lookup and non-zero exit; but a field-file header missing a required
column is only reported: the field list is empty and the run proceeds,
committing label pages with no field content. -/
theorem config_error_handling_amended (pageSizes : List (String × ℚ × ℚ))
    (ltHeader : List String) (ltRawRows : List (List (String × String)))
    (ltName : Option String) (fHeader : List String)
    (fRawRows : List (List (String × String))) (quantity enum : Option String)
    (dataRows : List Record) :
    (0 < LabelType.checkHeader ltHeader →
      isErr (create_labels pageSizes ltHeader ltRawRows ltName fHeader fRawRows
        quantity enum dataRows) = true)
    ∧ (∀ (row : List (String × String)) (e : String),
        LabelType.checkHeader ltHeader = 0 → row ∈ ltRawRows →
        LabelType.init pageSizes row = .error e →
        isErr (create_labels pageSizes ltHeader ltRawRows ltName fHeader
          fRawRows quantity enum dataRows) = true)
    ∧ (∀ (lt : LabelType) (frow : List (String × String)) (e : String),
        get_label_typeRaw pageSizes ltHeader ltRawRows ltName = .ok lt →
        LabelField.checkHeader fHeader = 0 → frow ∈ fRawRows →
        LabelField.init lt frow = .error e →
        isErr (create_labels pageSizes ltHeader ltRawRows ltName fHeader
          fRawRows quantity enum dataRows) = true)
    ∧ (0 < LabelField.checkHeader fHeader →
        (∀ lt : LabelType, LabelField.readFileRaw lt fHeader fRawRows = .ok [])
        ∧ ∀ (lt : LabelType) (r : Record) (rest : List Record),
            get_label_typeRaw pageSizes ltHeader ltRawRows ltName = .ok lt →
            read_beers quantity enum dataRows = .ok (r :: rest) →
            ∃ ops : List CanvasOp,
              create_labels pageSizes ltHeader ltRawRows ltName fHeader
                fRawRows quantity enum dataRows = .ok ops
              ∧ CanvasOp.showPage ∈ ops
              ∧ ∀ x y w h t, CanvasOp.drawParagraph x y w h t ∉ ops) := by
  refine ⟨?_, ?_, ?_, ?_⟩
  · intro hbad
    simp [create_labels, get_label_typeRaw, LabelType.readFileRaw, hbad,
      isErr, bind, Except.bind]
  · intro row e hok hmem hinit
    have hcr := constructRows_error_of_mem (LabelType.init pageSizes) row e
      hinit ltRawRows hmem
    cases hc : constructRows (LabelType.init pageSizes) ltRawRows with
    | ok l => rw [hc] at hcr; simp [isErr] at hcr
    | error e2 =>
      simp [create_labels, get_label_typeRaw, LabelType.readFileRaw, hok, hc,
        isErr, bind, Except.bind]
  · intro lt frow e hget hfok hmem hinit
    have hcr := constructRows_error_of_mem (LabelField.init lt) frow e hinit
      fRawRows hmem
    cases hc : constructRows (LabelField.init lt) fRawRows with
    | ok l => rw [hc] at hcr; simp [isErr] at hcr
    | error e2 =>
      simp [create_labels, hget, LabelField.readFileRaw, hfok, hc, isErr,
        bind, Except.bind]
  · intro hbad
    refine ⟨fun lt => by simp [LabelField.readFileRaw, hbad],
      fun lt r rest hget hrb => ?_⟩
    obtain ⟨ops, hops, hsp, _, hnd⟩ := add_labels_no_fields lt r rest
    refine ⟨ops, ?_, hsp, hnd⟩
    simp [create_labels, hget, LabelField.readFileRaw, hbad, hrb, hops, bind,
      Except.bind]

/-- Witness for C5 amended: the label-header, unknown-page-size,
malformed-label-numeric and malformed-field-numeric error classes each abort
the concrete pipeline, and the construction errors are the traced `TypeError`
and `ValueError`. -/
theorem config_error_handling_amended_witness :
    LabelType.init testPageSizes unknownPageRow
      = .error "TypeError: NoneType object is not subscriptable (self.page_size[1], line 130)"
    ∧ LabelType.init testPageSizes badNumericRow
      = .error "ValueError: could not convert string to float: wide"
    ∧ isErr (create_labels testPageSizes ["Name"] [rawLabelRow] none
        LabelField.COLUMNS [rawFieldRow] none none
        [[("beer", PyVal.str "IPA")]]) = true
    ∧ isErr (create_labels testPageSizes LabelType.COLUMNS [unknownPageRow]
        none LabelField.COLUMNS [rawFieldRow] none none
        [[("beer", PyVal.str "IPA")]]) = true
    ∧ isErr (create_labels testPageSizes LabelType.COLUMNS [badNumericRow]
        none LabelField.COLUMNS [rawFieldRow] none none
        [[("beer", PyVal.str "IPA")]]) = true
    ∧ isErr (create_labels testPageSizes LabelType.COLUMNS [rawLabelRow] none
        LabelField.COLUMNS [badFieldRow] none none
        [[("beer", PyVal.str "IPA")]]) = true := by
  refine ⟨rfl, rfl, ?_, ?_, ?_, ?_⟩
  · exact (config_error_handling_amended testPageSizes ["Name"] [rawLabelRow]
      none LabelField.COLUMNS [rawFieldRow] none none
      [[("beer", PyVal.str "IPA")]]).1 (by decide)
  · exact (config_error_handling_amended testPageSizes LabelType.COLUMNS
      [unknownPageRow] none LabelField.COLUMNS [rawFieldRow] none none
      [[("beer", PyVal.str "IPA")]]).2.1 unknownPageRow
      "TypeError: NoneType object is not subscriptable (self.page_size[1], line 130)"
      (by decide) (by decide) rfl
  · exact (config_error_handling_amended testPageSizes LabelType.COLUMNS
      [badNumericRow] none LabelField.COLUMNS [rawFieldRow] none none
      [[("beer", PyVal.str "IPA")]]).2.1 badNumericRow
      "ValueError: could not convert string to float: wide"
      (by decide) (by decide) rfl
  · exact (config_error_handling_amended testPageSizes LabelType.COLUMNS
      [rawLabelRow] none LabelField.COLUMNS [badFieldRow] none none
      [[("beer", PyVal.str "IPA")]]).2.2.1 _ badFieldRow
      "ValueError: could not convert string to float: x" rfl (by decide)
      (by decide) rfl
